import Mathlib

/-!
Shallow embedding of the story-engine core of the `history` repository
(a branching interactive-fiction bot).

The persistent state (`runs` and `flags` relations of the SQLite store,
`src/storage/db.py`) is modelled by an explicit `DBState` record that every
operation threads.  Timestamps (`CURRENT_TIMESTAMP`) are modelled by an
explicit `now : Nat` argument.  Python's `None`-able values become `Option`,
and the single exceptional path (`int()` on a non-numeric flag value inside
`_increment_counter`, `src/engine/effects.py`) becomes `Except`.
The `DEBUG` configuration flag defaults to false (`src/config.py`), so the
debug text augmentation of the renderer is omitted.  The `users` relation is
never read by the engine logic modelled here and is omitted.
-/

/-- One row of the `runs` relation (`src/storage/models.py`, `Run`). -/
structure Run where
  run_id : Nat
  user_id : Nat
  story_id : String
  current_scene : String
  is_finished : Bool
  started_at : Nat
  finished_at : Option Nat
deriving DecidableEq, Repr

/-- The mutable database state: the `runs` and `flags` relations plus the
AUTOINCREMENT counter for run ids.  A flag row is `(run_id, name, value)`;
the schema enforces `PRIMARY KEY (run_id, flag_name)`. -/
structure DBState where
  runs : List Run
  flags : List (Nat × String × String)
  nextRunId : Nat
deriving DecidableEq, Repr

/-- `FlagRepository.get_flags`: all flags of one run, as the association list
the Python code turns into a dict (keys are unique by the schema). -/
def FlagRepository.get_flags (db : DBState) (run_id : Nat) : List (String × String) :=
  db.flags.filterMap (fun f => if f.1 = run_id then some f.2 else none)

/-- Dict lookup on a flags snapshot (`flags.get(name)` / `name in flags`). -/
def lookupFlag (flags : List (String × String)) (name : String) : Option String :=
  (flags.find? (fun f => f.1 == name)).map (·.2)

/-- `FlagRepository.set_flag`: `INSERT OR REPLACE` on the `(run_id, name)` key. -/
def FlagRepository.set_flag (db : DBState) (run_id : Nat) (name value : String) : DBState :=
  { db with flags :=
      db.flags.filter (fun f => !(f.1 == run_id && f.2.1 == name)) ++ [(run_id, name, value)] }

/-- `FlagRepository.remove_flag`. -/
def FlagRepository.remove_flag (db : DBState) (run_id : Nat) (name : String) : DBState :=
  { db with flags := db.flags.filter (fun f => !(f.1 == run_id && f.2.1 == name)) }

/-- A condition, as the tagged one-key dictionary of the YAML source
(`src/engine/conditions.py`).  `flag_equals` carries the optional `flag` and
`value` entries exactly as `dict.get` yields them; `unknown` stands for any
first key outside the recognized set. -/
inductive Condition where
  | has_flag (name : String)
  | not_has_flag (name : String)
  | flag_equals (flag : Option String) (value : Option String)
  | unknown (tag : String)
deriving DecidableEq, Repr

/-- `ConditionChecker._check_single_condition` together with its helpers
`_check_has_flag` and `_check_flag_equals`, evaluated against the loaded
flags cache.  Python's `if not flag_name` also rejects the empty string. -/
def ConditionChecker.check_single_condition
    (cache : List (String × String)) : Condition → Bool
  | .has_flag name => (lookupFlag cache name).isSome
  | .not_has_flag name => !(lookupFlag cache name).isSome
  | .flag_equals flag value =>
    match flag, value with
    | some f, some v =>
      if f = "" then false else lookupFlag cache f == some v
    | _, _ => false
  | .unknown _ => false

/-- The loop of `ConditionChecker.check_conditions`: each condition is checked
against the cache, returning `false` at the first failure. -/
def ConditionChecker.check_list
    (cache : List (String × String)) : List Condition → Bool
  | [] => true
  | c :: rest =>
    if ConditionChecker.check_single_condition cache c then
      ConditionChecker.check_list cache rest
    else false

/-- `ConditionChecker.check_conditions`.  The second component counts how many
times `FlagRepository.get_flags` is invoked during the call, mirroring the
source: the empty list returns `True` before `load_flags`, otherwise
`load_flags` performs the single read and every condition is checked against
that cache. -/
def ConditionChecker.check_conditions
    (db : DBState) (run_id : Nat) (conditions : List Condition) : Bool × Nat :=
  if conditions.isEmpty then (true, 0)
  else
    let cache := FlagRepository.get_flags db run_id
    (ConditionChecker.check_list cache conditions, 1)

/-- An effect, as the tagged one-key dictionary of the YAML source
(`src/engine/effects.py`).  `set_flag` carries the optional `flag` and
`value` entries as `dict.get` yields them (the value defaults to `"1"`). -/
inductive Effect where
  | add_flag (name : String)
  | remove_flag (name : String)
  | set_flag (flag : Option String) (value : Option String)
  | increment_counter (name : String)
  | unknown (tag : String)
deriving DecidableEq, Repr

/-- Digits of a decimal numeral, or `none` on the empty list or a non-digit. -/
def pyDigitsAux : List Char → Nat → Option Nat
  | [], acc => some acc
  | c :: cs, acc =>
    if c.isDigit then pyDigitsAux cs (acc * 10 + (c.toNat - 48)) else none

/-- Python's `int(s)` on the decimal numerals the engine itself produces:
an optional sign followed by at least one digit; `none` models the
`ValueError` raised on anything else. -/
def pyInt? (s : String) : Option Int :=
  match s.data with
  | [] => none
  | '-' :: rest =>
    if rest = [] then none else (pyDigitsAux rest 0).map (fun n => -(n : Int))
  | '+' :: rest =>
    if rest = [] then none else (pyDigitsAux rest 0).map (fun n => (n : Int))
  | cs => (pyDigitsAux cs 0).map (fun n => (n : Int))

/-- `EffectApplier._apply_single_effect` with its helpers `_add_flag`,
`_remove_flag`, `_set_flag` and `_increment_counter`.  Unknown tags are
logged and skipped.  Python's `if flag_name` in `_set_flag` also rejects the
empty string.  `_increment_counter` re-reads the run's flags, parses the
current value (default `"0"`) and stores the successor as a string; a
non-numeric value raises, modelled as `Except.error`. -/
def EffectApplier.apply_single_effect
    (db : DBState) (run_id : Nat) : Effect → Except String DBState
  | .add_flag name => .ok (FlagRepository.set_flag db run_id name "1")
  | .remove_flag name => .ok (FlagRepository.remove_flag db run_id name)
  | .set_flag flag value =>
    match flag with
    | none => .ok db
    | some f =>
      if f = "" then .ok db
      else .ok (FlagRepository.set_flag db run_id f (value.getD "1"))
  | .increment_counter name =>
    let flags := FlagRepository.get_flags db run_id
    match pyInt? ((lookupFlag flags name).getD "0") with
    | none => .error "ValueError"
    | some v => .ok (FlagRepository.set_flag db run_id name (toString (v + 1)))
  | .unknown _ => .ok db

/-- `EffectApplier.apply_effects`: each effect applied in list order. -/
def EffectApplier.apply_effects
    (db : DBState) (run_id : Nat) : List Effect → Except String DBState
  | [] => .ok db
  | e :: rest =>
    match EffectApplier.apply_single_effect db run_id e with
    | .ok db2 => EffectApplier.apply_effects db2 run_id rest
    | .error msg => .error msg

/-- A choice inside a scene (`choices` entry of the YAML story). -/
structure Choice where
  id : String
  text : String
  next_scene : Option String
  conditions : List Condition
  effects : List Effect
deriving DecidableEq, Repr

/-- A scene: text plus the ordered choice list. -/
structure Scene where
  text : String
  choices : List Choice
deriving DecidableEq, Repr

/-- An ending: text plus its presentation type. -/
structure Ending where
  text : String
  ending_type : String
deriving DecidableEq, Repr

/-- A loaded story.  `scenes` and `endings` model the YAML mappings as
association lists with unique keys. -/
structure Story where
  start_scene : Option String
  scenes : List (String × Scene)
  endings : List (String × Ending)
  allow_restart : Bool
deriving DecidableEq, Repr

/-- Dictionary lookup on an association list (Python `dict.get`). -/
def alookup {α : Type} (l : List (String × α)) (k : String) : Option α :=
  (l.find? (fun p => p.1 == k)).map (·.2)

/-- `RunRepository.create`: inserts a fresh unfinished run at the given start
scene; the id comes from the AUTOINCREMENT counter, `started_at` from the
current time. -/
def RunRepository.create
    (db : DBState) (user_id : Nat) (story_id start_scene : String) (now : Nat) :
    Run × DBState :=
  let run : Run :=
    ⟨db.nextRunId, user_id, story_id, start_scene, false, now, none⟩
  (run, { db with runs := db.runs ++ [run], nextRunId := db.nextRunId + 1 })

/-- `RunRepository._get_run_by_id`: `SELECT * FROM runs WHERE run_id = ?`. -/
def RunRepository.get_run_by_id (db : DBState) (run_id : Nat) : Option Run :=
  db.runs.find? (fun r => r.run_id == run_id)

/-- The filter of `get_active_run` and `reset_run`:
`user_id = ? AND story_id = ? AND is_finished = 0`. -/
def RunRepository.isActiveFor (user_id : Nat) (story_id : String) (r : Run) : Bool :=
  r.user_id == user_id && r.story_id == story_id && !r.is_finished

/-- `ORDER BY started_at DESC LIMIT 1` over a candidate list (SQLite leaves
the order among equal timestamps unspecified; we keep the earlier row). -/
def RunRepository.mostRecent : List Run → Option Run
  | [] => none
  | r :: rs =>
    match RunRepository.mostRecent rs with
    | none => some r
    | some r2 => if r.started_at < r2.started_at then some r2 else some r

/-- `RunRepository.get_active_run`: the most recently started unfinished run
for the (user, story) pair. -/
def RunRepository.get_active_run
    (db : DBState) (user_id : Nat) (story_id : String) : Option Run :=
  RunRepository.mostRecent (db.runs.filter (RunRepository.isActiveFor user_id story_id))

/-- `RunRepository.update_scene`: `UPDATE runs SET current_scene = ?`. -/
def RunRepository.update_scene (db : DBState) (run_id : Nat) (scene_id : String) : DBState :=
  { db with runs := db.runs.map (fun r =>
      if r.run_id == run_id then { r with current_scene := scene_id } else r) }

/-- `RunRepository.finish_run`: unconditionally sets `is_finished = 1` and
`finished_at = CURRENT_TIMESTAMP` for the run, whatever its prior state. -/
def RunRepository.finish_run (db : DBState) (run_id : Nat) (now : Nat) : DBState :=
  { db with runs := db.runs.map (fun r =>
      if r.run_id == run_id then { r with is_finished := true, finished_at := some now } else r) }

/-- First statement of `RunRepository.reset_run` (committed on its own):
`DELETE FROM flags WHERE run_id IN (active runs of the pair)`. -/
def RunRepository.reset_run_flags
    (db : DBState) (user_id : Nat) (story_id : String) : DBState :=
  let activeIds :=
    (db.runs.filter (RunRepository.isActiveFor user_id story_id)).map (·.run_id)
  { db with flags := db.flags.filter (fun f => !(activeIds.contains f.1)) }

/-- Second statement of `RunRepository.reset_run` (committed on its own):
`DELETE FROM runs WHERE user_id = ? AND story_id = ? AND is_finished = 0`. -/
def RunRepository.reset_run_runs
    (db : DBState) (user_id : Nat) (story_id : String) : DBState :=
  { db with runs := db.runs.filter (fun r => !(RunRepository.isActiveFor user_id story_id r)) }

/-- `RunRepository.reset_run`: the two deletions in source order, flags first.
Each statement commits separately; the committed state after the first one is
`reset_run_flags db user_id story_id`. -/
def RunRepository.reset_run (db : DBState) (user_id : Nat) (story_id : String) : DBState :=
  RunRepository.reset_run_runs (RunRepository.reset_run_flags db user_id story_id) user_id story_id

/-- What the engine returns to the handler: message text, optional inline
keyboard (one button per row: display text and callback data), and run id. -/
structure Render where
  text : String
  keyboard : Option (List (String × String))
  run_id : Nat
deriving DecidableEq, Repr

/-- The callback payload `choice:<run_id>:<scene_id>:<choice_id>` built by
`SceneRenderer._build_keyboard`. -/
def SceneRenderer.callback_data (run_id : Nat) (scene_id choice_id : String) : String :=
  "choice:" ++ toString run_id ++ ":" ++ scene_id ++ ":" ++ choice_id

/-- `SceneRenderer._build_keyboard`: the append loop building one button per
choice, in list order; it never consults flags or conditions. -/
def SceneRenderer.build_keyboard
    (run_id : Nat) (choices : List Choice) (scene_id : String) :
    List (String × String) :=
  choices.foldl
    (fun buttons c => buttons ++ [(c.text, SceneRenderer.callback_data run_id scene_id c.id)])
    []

/-- `SceneRenderer.render_scene` with `DEBUG` off: the scene text and its
keyboard. -/
def SceneRenderer.render_scene
    (run_id : Nat) (scene : Scene) (scene_id : String) :
    String × List (String × String) :=
  (scene.text, SceneRenderer.build_keyboard run_id scene.choices scene_id)

/-- `StoryEngine.get_story`: index lookup in the loaded story dictionary. -/
def StoryEngine.get_story (stories : List (String × Story)) (story_id : String) : Option Story :=
  alookup stories story_id

/-- `StoryEngine._render_ending`: a missing ending yields the literal error
text (still a successful tuple in the source); otherwise `finish_run` runs
first, then the ending text is rendered (`SceneRenderer.render_ending`, whose
flags read feeds only the `DEBUG` augmentation). -/
def StoryEngine.render_ending
    (db : DBState) (run_id : Nat) (story : Story) (ending_id : String) (now : Nat) :
    Render × DBState :=
  match alookup story.endings ending_id with
  | none => (⟨"Ошибка: финал не найден", none, run_id⟩, db)
  | some ending =>
    let db2 := RunRepository.finish_run db run_id now
    (⟨ending.text, none, run_id⟩, db2)

/-- `StoryEngine.continue_story`: resolves the run's current position to an
ending (rendered via `render_ending`) or a scene (rendered with its
keyboard); fails when the run, its story, or the position is unknown. -/
def StoryEngine.continue_story
    (db : DBState) (stories : List (String × Story)) (run_id : Nat) (now : Nat) :
    Option Render × DBState :=
  match RunRepository.get_run_by_id db run_id with
  | none => (none, db)
  | some run =>
    match StoryEngine.get_story stories run.story_id with
    | none => (none, db)
    | some story =>
      if (alookup story.endings run.current_scene).isSome then
        let rd := StoryEngine.render_ending db run_id story run.current_scene now
        (some rd.1, rd.2)
      else
        match alookup story.scenes run.current_scene with
        | none => (none, db)
        | some scene =>
          let tk := SceneRenderer.render_scene run_id scene run.current_scene
          (some ⟨tk.1, some tk.2, run_id⟩, db)

/-- `StoryEngine.start_story`: unknown story fails; an existing active run is
continued instead of creating a new one (the `allow_restart` block in the
source only logs and changes nothing); a missing or empty `start_scene`
fails; otherwise a fresh run is created at `start_scene` and continued. -/
def StoryEngine.start_story
    (db : DBState) (stories : List (String × Story)) (user_id : Nat)
    (story_id : String) (now : Nat) : Option Render × DBState :=
  match StoryEngine.get_story stories story_id with
  | none => (none, db)
  | some story =>
    match RunRepository.get_active_run db user_id story_id with
    | some active_run => StoryEngine.continue_story db stories active_run.run_id now
    | none =>
      match story.start_scene with
      | none => (none, db)
      | some s =>
        if s = "" then (none, db)
        else
          let rdb := RunRepository.create db user_id story_id s now
          StoryEngine.continue_story rdb.2 stories rdb.1.run_id now

/-- `StoryEngine.process_choice`: resolves run, story, scene and choice (the
first choice with the given id); denies when the conditions fail; applies the
effects; fails after that when `next_scene` is missing or empty; otherwise
advances the run and re-resolves via `continue_story`.  `Except.error` is the
propagated `ValueError` of a non-numeric counter. -/
def StoryEngine.process_choice
    (db : DBState) (stories : List (String × Story)) (run_id : Nat)
    (scene_id choice_id : String) (now : Nat) :
    Except String (Option Render × DBState) :=
  match RunRepository.get_run_by_id db run_id with
  | none => .ok (none, db)
  | some run =>
    match StoryEngine.get_story stories run.story_id with
    | none => .ok (none, db)
    | some story =>
      match alookup story.scenes scene_id with
      | none => .ok (none, db)
      | some scene =>
        match scene.choices.find? (fun c => c.id == choice_id) with
        | none => .ok (none, db)
        | some choice =>
          if !(ConditionChecker.check_conditions db run_id choice.conditions).1 then
            .ok (none, db)
          else
            match EffectApplier.apply_effects db run_id choice.effects with
            | .error msg => .error msg
            | .ok db2 =>
              match choice.next_scene with
              | none => .ok (none, db2)
              | some ns =>
                if ns = "" then .ok (none, db2)
                else
                  let db3 := RunRepository.update_scene db2 run_id ns
                  .ok (StoryEngine.continue_story db3 stories run_id now)

/-! ### Helper lemmas -/

lemma foldl_buttons (f : Choice → String × String) (l : List Choice) :
    ∀ acc : List (String × String),
      l.foldl (fun b c => b ++ [f c]) acc = acc ++ l.map f := by
  induction l with
  | nil => intro acc; simp
  | cons c cs ih => intro acc; simp [List.foldl, ih (acc ++ [f c])]

lemma build_keyboard_eq_map (run_id : Nat) (choices : List Choice) (scene_id : String) :
    SceneRenderer.build_keyboard run_id choices scene_id
      = choices.map (fun c => (c.text, SceneRenderer.callback_data run_id scene_id c.id)) := by
  unfold SceneRenderer.build_keyboard
  rw [foldl_buttons]
  simp

lemma check_list_true_iff (cache : List (String × String)) (l : List Condition) :
    ConditionChecker.check_list cache l = true
      ↔ ∀ c ∈ l, ConditionChecker.check_single_condition cache c = true := by
  induction l with
  | nil => simp [ConditionChecker.check_list]
  | cons c cs ih =>
    by_cases h : ConditionChecker.check_single_condition cache c = true
    · simp [ConditionChecker.check_list, h, ih]
    · simp [ConditionChecker.check_list, h]

lemma check_list_irrelevant_after_false (cache : List (String × String))
    (c : Condition) (post post' : List Condition)
    (h : ConditionChecker.check_single_condition cache c = false) :
    ∀ pre : List Condition,
      ConditionChecker.check_list cache (pre ++ c :: post)
        = ConditionChecker.check_list cache (pre ++ c :: post') := by
  intro pre
  induction pre with
  | nil => simp [ConditionChecker.check_list, h]
  | cons p ps ih =>
    by_cases hp : ConditionChecker.check_single_condition cache p = true
    · simp [ConditionChecker.check_list, hp, ih]
    · simp [ConditionChecker.check_list, hp]

lemma apply_single_effect_runs (db : DBState) (rid : Nat) (e : Effect) (db2 : DBState)
    (h : EffectApplier.apply_single_effect db rid e = .ok db2) :
    db2.runs = db.runs ∧ db2.nextRunId = db.nextRunId := by
  cases e with
  | add_flag name =>
    simp [EffectApplier.apply_single_effect] at h
    subst h; constructor <;> rfl
  | remove_flag name =>
    simp [EffectApplier.apply_single_effect] at h
    subst h; constructor <;> rfl
  | set_flag flag value =>
    cases flag with
    | none => simp [EffectApplier.apply_single_effect] at h; subst h; constructor <;> rfl
    | some f =>
      by_cases hf : f = ""
      · simp [EffectApplier.apply_single_effect, hf] at h; subst h; constructor <;> rfl
      · simp [EffectApplier.apply_single_effect, hf] at h; subst h; constructor <;> rfl
  | increment_counter name =>
    simp [EffectApplier.apply_single_effect] at h
    cases hp : pyInt? ((lookupFlag (FlagRepository.get_flags db rid) name).getD "0") with
    | none => rw [hp] at h; simp at h
    | some v => rw [hp] at h; simp at h; subst h; constructor <;> rfl
  | unknown tag =>
    simp [EffectApplier.apply_single_effect] at h
    subst h; constructor <;> rfl

lemma apply_effects_runs (rid : Nat) :
    ∀ (effects : List Effect) (db db2 : DBState),
      EffectApplier.apply_effects db rid effects = .ok db2 →
      db2.runs = db.runs ∧ db2.nextRunId = db.nextRunId := by
  intro effects
  induction effects with
  | nil =>
    intro db db2 h
    simp [EffectApplier.apply_effects] at h
    subst h; constructor <;> rfl
  | cons e rest ih =>
    intro db db2 h
    simp [EffectApplier.apply_effects] at h
    cases he : EffectApplier.apply_single_effect db rid e with
    | error msg => rw [he] at h; simp at h
    | ok db1 =>
      rw [he] at h; simp at h
      have h1 := apply_single_effect_runs db rid e db1 he
      have h2 := ih db1 db2 h
      exact ⟨h2.1.trans h1.1, h2.2.trans h1.2⟩

lemma find_run_finish (runs : List Run) (rid : Nat) (now : Nat) :
    (runs.map (fun r =>
        if r.run_id == rid then { r with is_finished := true, finished_at := some now } else r)).find?
        (fun r => r.run_id == rid)
      = (runs.find? (fun r => r.run_id == rid)).map
          (fun r => { r with is_finished := true, finished_at := some now }) := by
  induction runs with
  | nil => simp
  | cons r rs ih =>
    by_cases h : r.run_id = rid
    · have hb : (r.run_id == rid) = true := by simp [h]
      simp only [List.map_cons, List.find?, hb, if_true]
      rfl
    · have hb : (r.run_id == rid) = false := by simp [h]
      simp only [List.map_cons, List.find?, hb, Bool.false_eq_true, if_false]
      exact ih

lemma get_run_by_id_finish_run (db : DBState) (rid : Nat) (now : Nat) :
    RunRepository.get_run_by_id (RunRepository.finish_run db rid now) rid
      = (RunRepository.get_run_by_id db rid).map
          (fun r => { r with is_finished := true, finished_at := some now }) := by
  unfold RunRepository.get_run_by_id RunRepository.finish_run
  exact find_run_finish db.runs rid now

lemma continue_story_runs_length (db : DBState) (stories : List (String × Story))
    (rid now : Nat) :
    (StoryEngine.continue_story db stories rid now).2.runs.length = db.runs.length := by
  unfold StoryEngine.continue_story
  cases hr : RunRepository.get_run_by_id db rid with
  | none => simp [hr]
  | some run =>
    cases hs : StoryEngine.get_story stories run.story_id with
    | none => simp [hr, hs]
    | some story =>
      cases he : alookup story.endings run.current_scene with
      | some e =>
        simp [hr, hs, he, StoryEngine.render_ending, RunRepository.finish_run]
      | none =>
        cases hsc : alookup story.scenes run.current_scene with
        | none => simp [hr, hs, he, hsc]
        | some scene => simp [hr, hs, he, hsc]

lemma continue_story_flags (db : DBState) (stories : List (String × Story))
    (rid now : Nat) :
    (StoryEngine.continue_story db stories rid now).2.flags = db.flags := by
  unfold StoryEngine.continue_story
  cases hr : RunRepository.get_run_by_id db rid with
  | none => simp [hr]
  | some run =>
    cases hs : StoryEngine.get_story stories run.story_id with
    | none => simp [hr, hs]
    | some story =>
      cases he : alookup story.endings run.current_scene with
      | some e =>
        simp [hr, hs, he, StoryEngine.render_ending, RunRepository.finish_run]
      | none =>
        cases hsc : alookup story.scenes run.current_scene with
        | none => simp [hr, hs, he, hsc]
        | some scene => simp [hr, hs, he, hsc]

lemma find_flag_set_self (rid : Nat) (name v : String) :
    ∀ l : List (Nat × String × String),
      ((l.filter (fun f => !(f.1 == rid && f.2.1 == name))).filterMap
          (fun f => if f.1 = rid then some f.2 else none) ++ [(name, v)]).find?
          (fun f => f.1 == name)
        = some (name, v) := by
  intro l
  induction l with
  | nil => simp [List.find?]
  | cons f fs ih =>
    by_cases hk : (f.1 == rid && f.2.1 == name) = true
    · have hdrop : (!(f.1 == rid && f.2.1 == name)) = false := by rw [hk]; rfl
      simp only [List.filter_cons, hdrop, Bool.false_eq_true, if_false]
      exact ih
    · have hx : (f.1 == rid && f.2.1 == name) = false := by
        revert hk
        cases f.1 == rid && f.2.1 == name <;> simp
      have hkeep : (!(f.1 == rid && f.2.1 == name)) = true := by rw [hx]; rfl
      simp only [List.filter_cons, hkeep, if_true]
      by_cases hr : f.1 = rid
      · have hn : (f.2.1 == name) = false := by
          by_contra hc
          rw [Bool.not_eq_false] at hc
          rw [Bool.and_eq_true] at hk
          exact hk ⟨by simp [hr], hc⟩
        simp only [List.filterMap_cons, hr, if_true, List.cons_append, List.find?, hn]
        exact ih
      · simp only [List.filterMap_cons, hr, if_false]
        exact ih

lemma lookupFlag_set_self (db : DBState) (rid : Nat) (name v : String) :
    lookupFlag (FlagRepository.get_flags (FlagRepository.set_flag db rid name v) rid) name
      = some v := by
  unfold lookupFlag FlagRepository.get_flags FlagRepository.set_flag
  simp only [List.filterMap_append]
  have : List.filterMap (fun f => if f.1 = rid then some f.2 else none) [(rid, name, v)]
      = [(name, v)] := by simp
  rw [this]
  rw [find_flag_set_self rid name v db.flags]
  rfl

lemma filter_not_self {α : Type} (p : α → Bool) (l : List α) :
    (l.filter (fun a => !p a)).filter p = [] := by
  induction l with
  | nil => simp
  | cons a as ih =>
    by_cases h : p a = true
    · simp [List.filter_cons, h, ih]
    · have h2 : p a = false := by simp_all
      simp [List.filter_cons, h2, ih]

lemma get_active_run_reset (db : DBState) (uid : Nat) (sid : String) :
    RunRepository.get_active_run (RunRepository.reset_run db uid sid) uid sid = none := by
  unfold RunRepository.get_active_run RunRepository.reset_run RunRepository.reset_run_runs
  simp only []
  rw [filter_not_self (RunRepository.isActiveFor uid sid)]
  rfl

lemma get_flags_nil_of_fresh (db : DBState) (rid : Nat)
    (h : ∀ f ∈ db.flags, f.1 ≠ rid) :
    FlagRepository.get_flags db rid = [] := by
  unfold FlagRepository.get_flags
  rw [List.filterMap_eq_nil_iff]
  intro f hf
  simp [h f hf]

/-! ### Claim theorems -/

/-- C4: `check_conditions` is true on the empty list without reading flags;
on a non-empty list it performs exactly one up-front flags read (count 1) and
evaluates every condition against that single cache, returning true iff all
of them are true; it short-circuits at the first failing condition, so the
conditions after it never influence the result. -/
theorem check_conditions_spec (db : DBState) (rid : Nat) :
    ConditionChecker.check_conditions db rid [] = (true, 0)
    ∧ (∀ conditions : List Condition, conditions ≠ [] →
        ConditionChecker.check_conditions db rid conditions
          = (ConditionChecker.check_list (FlagRepository.get_flags db rid) conditions, 1))
    ∧ (∀ (cache : List (String × String)) (conditions : List Condition),
        ConditionChecker.check_list cache conditions = true
          ↔ ∀ c ∈ conditions, ConditionChecker.check_single_condition cache c = true)
    ∧ (∀ (cache : List (String × String)) (pre post post' : List Condition) (c : Condition),
        ConditionChecker.check_single_condition cache c = false →
        ConditionChecker.check_list cache (pre ++ c :: post)
          = ConditionChecker.check_list cache (pre ++ c :: post')) := by
  refine ⟨rfl, ?_, ?_, ?_⟩
  · intro conditions hne
    have hne2 : conditions.isEmpty = false := by
      cases conditions with
      | nil => exact absurd rfl hne
      | cons c cs => rfl
    simp [ConditionChecker.check_conditions, hne2]
  · intro cache conditions
    exact check_list_true_iff cache conditions
  · intro cache pre post post' c h
    exact check_list_irrelevant_after_false cache c post post' h pre

/-- C4 witness: a non-empty condition list over a concrete store reads the
flags once, and swapping what follows a failing condition keeps the result. -/
theorem check_conditions_spec_witness :
    ConditionChecker.check_conditions ⟨[], [(1, "k", "1")], 2⟩ 1
        [Condition.has_flag "k", Condition.unknown "weird"]
      = (ConditionChecker.check_list
          (FlagRepository.get_flags ⟨[], [(1, "k", "1")], 2⟩ 1)
          [Condition.has_flag "k", Condition.unknown "weird"], 1)
    ∧ ConditionChecker.check_list [("k", "1")]
        ([] ++ Condition.unknown "weird" :: [Condition.has_flag "k"])
      = ConditionChecker.check_list [("k", "1")]
        ([] ++ Condition.unknown "weird" :: []) := by
  constructor
  · exact (check_conditions_spec ⟨[], [(1, "k", "1")], 2⟩ 1).2.1 _ (by decide)
  · exact (check_conditions_spec ⟨[], [(1, "k", "1")], 2⟩ 1).2.2.2 [("k", "1")] []
      [Condition.has_flag "k"] [] (Condition.unknown "weird") (by decide)

/-- C7: an unrecognized condition kind evaluates to false (fail-closed), and
an unrecognized effect kind is a no-op, returning the database — and hence
every flag — unchanged; neither is fatal. -/
theorem unknown_condition_false_unknown_effect_noop :
    ∀ (cache : List (String × String)) (tag : String) (db : DBState) (rid : Nat),
      ConditionChecker.check_single_condition cache (Condition.unknown tag) = false
      ∧ EffectApplier.apply_single_effect db rid (Effect.unknown tag) = .ok db :=
  fun _ _ _ _ => ⟨rfl, rfl⟩

/-- C2: when a resolved choice's conditions evaluate false against the run's
current flags, `process_choice` returns absent with the database unchanged:
the run's position is untouched and no effect is applied. -/
theorem process_choice_denied_leaves_state_unchanged
    (db : DBState) (stories : List (String × Story)) (run_id : Nat)
    (scene_id choice_id : String) (now : Nat)
    (run : Run) (story : Story) (scene : Scene) (choice : Choice) :
    RunRepository.get_run_by_id db run_id = some run →
    StoryEngine.get_story stories run.story_id = some story →
    alookup story.scenes scene_id = some scene →
    scene.choices.find? (fun c => c.id == choice_id) = some choice →
    (ConditionChecker.check_conditions db run_id choice.conditions).1 = false →
    StoryEngine.process_choice db stories run_id scene_id choice_id now
      = .ok (none, db) := by
  intro h1 h2 h3 h4 h5
  unfold StoryEngine.process_choice
  simp [h1, h2, h3, h4, h5]

def dbC2 : DBState := ⟨[⟨1, 7, "s", "a", false, 0, none⟩], [], 2⟩

def sceneC2 : Scene :=
  ⟨"A", [⟨"c", "go", some "b", [Condition.has_flag "key"], [Effect.add_flag "x"]⟩]⟩

def storiesC2 : List (String × Story) := [("s", ⟨some "a", [("a", sceneC2)], [], false⟩)]

/-- C2 witness: choice "c" requires flag "key", absent on the concrete run, so
the call is denied and the state is returned unchanged. -/
theorem process_choice_denied_leaves_state_unchanged_witness :
    StoryEngine.process_choice dbC2 storiesC2 1 "a" "c" 5 = .ok (none, dbC2) :=
  process_choice_denied_leaves_state_unchanged dbC2 storiesC2 1 "a" "c" 5
    ⟨1, 7, "s", "a", false, 0, none⟩ ⟨some "a", [("a", sceneC2)], [], false⟩ sceneC2
    ⟨"c", "go", some "b", [Condition.has_flag "key"], [Effect.add_flag "x"]⟩
    (by decide) (by decide) (by decide) (by decide) (by decide)

/-- C10: a resolved choice whose conditions pass but that declares no
`next_scene` makes `process_choice` return absent only after the choice's
effects have been applied and persisted (the returned state is exactly the
post-effects state), while the `runs` relation — hence the run's position —
is unchanged: the failure is detected after the effect mutations. -/
theorem process_choice_missing_next_scene_after_effects
    (db db2 : DBState) (stories : List (String × Story)) (run_id : Nat)
    (scene_id choice_id : String) (now : Nat)
    (run : Run) (story : Story) (scene : Scene) (choice : Choice) :
    RunRepository.get_run_by_id db run_id = some run →
    StoryEngine.get_story stories run.story_id = some story →
    alookup story.scenes scene_id = some scene →
    scene.choices.find? (fun c => c.id == choice_id) = some choice →
    (ConditionChecker.check_conditions db run_id choice.conditions).1 = true →
    choice.next_scene = none →
    EffectApplier.apply_effects db run_id choice.effects = .ok db2 →
    StoryEngine.process_choice db stories run_id scene_id choice_id now
      = .ok (none, db2)
    ∧ db2.runs = db.runs := by
  intro h1 h2 h3 h4 h5 h6 h7
  constructor
  · unfold StoryEngine.process_choice
    simp [h1, h2, h3, h4, h5, h6, h7]
  · exact (apply_effects_runs run_id choice.effects db db2 h7).1

def dbC10 : DBState := ⟨[⟨1, 7, "s", "a", false, 0, none⟩], [], 2⟩

def choiceC10 : Choice := ⟨"c", "go", none, [], [Effect.add_flag "x"]⟩

def storiesC10 : List (String × Story) :=
  [("s", ⟨some "a", [("a", ⟨"A", [choiceC10]⟩)], [], false⟩)]

/-- C10 witness: choice "c" has effect `add_flag "x"` and no `next_scene`; the
call returns absent but the returned state already holds flag "x", with the
runs unchanged. -/
theorem process_choice_missing_next_scene_after_effects_witness :
    StoryEngine.process_choice dbC10 storiesC10 1 "a" "c" 5
      = .ok (none, ⟨[⟨1, 7, "s", "a", false, 0, none⟩], [(1, "x", "1")], 2⟩)
    ∧ (⟨[⟨1, 7, "s", "a", false, 0, none⟩], [(1, "x", "1")], 2⟩ : DBState).runs
        = dbC10.runs :=
  process_choice_missing_next_scene_after_effects dbC10
    ⟨[⟨1, 7, "s", "a", false, 0, none⟩], [(1, "x", "1")], 2⟩ storiesC10 1 "a" "c" 5
    ⟨1, 7, "s", "a", false, 0, none⟩
    ⟨some "a", [("a", ⟨"A", [choiceC10]⟩)], [], false⟩ ⟨"A", [choiceC10]⟩ choiceC10
    (by decide) (by decide) (by decide) (by decide) (by decide) (by decide) rfl

/-- C9: rendering a scene through `continue_story` presents exactly one button
per choice of the scene's choice list, in list order — the keyboard is the
literal map over the list, so choices with unsatisfied conditions appear too
(no condition filtering at render time), and its length equals the number of
choices. -/
theorem render_scene_lists_all_choices_in_order
    (db : DBState) (stories : List (String × Story)) (run_id now : Nat)
    (run : Run) (story : Story) (scene : Scene) :
    RunRepository.get_run_by_id db run_id = some run →
    StoryEngine.get_story stories run.story_id = some story →
    alookup story.endings run.current_scene = none →
    alookup story.scenes run.current_scene = some scene →
    (StoryEngine.continue_story db stories run_id now).1
      = some ⟨scene.text,
          some (scene.choices.map (fun c =>
            (c.text, SceneRenderer.callback_data run_id run.current_scene c.id))),
          run_id⟩
    ∧ (SceneRenderer.build_keyboard run_id scene.choices run.current_scene).length
        = scene.choices.length := by
  intro h1 h2 h3 h4
  constructor
  · unfold StoryEngine.continue_story
    simp [h1, h2, h3, h4, SceneRenderer.render_scene, build_keyboard_eq_map]
  · rw [build_keyboard_eq_map]
    simp

def dbC9 : DBState := ⟨[⟨1, 7, "s", "a", false, 0, none⟩], [], 2⟩

def sceneC9 : Scene :=
  ⟨"A", [⟨"c1", "first", some "b", [], []⟩,
         ⟨"c2", "second", some "b", [Condition.has_flag "k"], []⟩]⟩

def storiesC9 : List (String × Story) := [("s", ⟨some "a", [("a", sceneC9)], [], false⟩)]

/-- C9 witness: a scene with two choices, the second gated by an unsatisfied
condition, renders two buttons in list order. -/
theorem render_scene_lists_all_choices_in_order_witness :
    (StoryEngine.continue_story dbC9 storiesC9 1 5).1
      = some ⟨"A", some [("first", "choice:1:a:c1"), ("second", "choice:1:a:c2")], 1⟩
    ∧ (SceneRenderer.build_keyboard 1 sceneC9.choices "a").length = 2 :=
  render_scene_lists_all_choices_in_order dbC9 storiesC9 1 5
    ⟨1, 7, "s", "a", false, 0, none⟩ ⟨some "a", [("a", sceneC9)], [], false⟩ sceneC9
    (by decide) (by decide) (by decide) (by decide)

/-- C1 (amended): whenever a run's current position names an existing ending,
`continue_story` marks the run finished (via `finish_run`, which sets
`is_finished = true` and `finished_at` to the current timestamp) before the
ending's text is rendered, and this is done unconditionally on every call: a
repeated `continue_story` on an already-finished run re-renders the same
ending but re-runs `finish_run`, overwriting `finished_at` with the new
timestamp rather than leaving it untouched. -/
theorem ending_resolution_marks_finished_each_call
    (db : DBState) (stories : List (String × Story)) (run_id now : Nat)
    (run : Run) (story : Story) (ending : Ending) :
    RunRepository.get_run_by_id db run_id = some run →
    StoryEngine.get_story stories run.story_id = some story →
    alookup story.endings run.current_scene = some ending →
    StoryEngine.continue_story db stories run_id now
      = (some ⟨ending.text, none, run_id⟩, RunRepository.finish_run db run_id now)
    ∧ RunRepository.get_run_by_id (RunRepository.finish_run db run_id now) run_id
        = some { run with is_finished := true, finished_at := some now } := by
  intro h1 h2 h3
  constructor
  · unfold StoryEngine.continue_story
    simp [h1, h2, h3, StoryEngine.render_ending]
  · rw [get_run_by_id_finish_run, h1]
    rfl

def dbC1 : DBState := ⟨[⟨1, 7, "s", "end1", true, 0, some 10⟩], [], 2⟩

def storiesC1 : List (String × Story) :=
  [("s", ⟨some "a", [], [("end1", ⟨"THE END", "good"⟩)], false⟩)]

/-- C1 counterexample: run 1 is already finished with `finished_at = 10` and
sits on ending `end1`; calling `continue_story` again does re-render the same
ending text, but it also re-triggers the finish side effect, rewriting
`finished_at` from 10 to the new timestamp 20 — so the finish side effects do
not happen exactly once. -/
theorem continue_story_rewrites_finished_at :
    (RunRepository.get_run_by_id dbC1 1).map (fun r => (r.is_finished, r.finished_at))
      = some (true, some 10)
    ∧ ((StoryEngine.continue_story dbC1 storiesC1 1 20).1).map (fun r => r.text)
        = some "THE END"
    ∧ (RunRepository.get_run_by_id (StoryEngine.continue_story dbC1 storiesC1 1 20).2 1).map
        (fun r => r.finished_at) = some (some 20) := by
  decide

def dbC1w : DBState := ⟨[⟨1, 7, "s", "end1", false, 0, none⟩], [], 2⟩

/-- C1 witness: a first `continue_story` on an unfinished run positioned at
ending `end1` renders the ending and marks the run finished at time 20. -/
theorem ending_resolution_marks_finished_each_call_witness :
    StoryEngine.continue_story dbC1w storiesC1 1 20
      = (some ⟨"THE END", none, 1⟩, RunRepository.finish_run dbC1w 1 20)
    ∧ RunRepository.get_run_by_id (RunRepository.finish_run dbC1w 1 20) 1
        = some ⟨1, 7, "s", "end1", true, 0, some 20⟩ :=
  ending_resolution_marks_finished_each_call dbC1w storiesC1 1 20
    ⟨1, 7, "s", "end1", false, 0, none⟩
    ⟨some "a", [], [("end1", ⟨"THE END", "good"⟩)], false⟩ ⟨"THE END", "good"⟩
    (by decide) (by decide) (by decide)

/-- C3 (amended): `start_story` fails when the story id is unknown; when an
unfinished run exists for the (user, story) pair it returns that run's current
render without creating a new run — and this branch wins even when the story
declares no start position, so the "no start position" failure applies only
when no unfinished run exists; in that case a missing (or empty) `start_scene`
fails, and otherwise exactly one new run is created, positioned at
`start_scene`. -/
theorem start_story_cases (db : DBState) (stories : List (String × Story))
    (uid : Nat) (sid : String) (now : Nat) :
    (StoryEngine.get_story stories sid = none →
      StoryEngine.start_story db stories uid sid now = (none, db))
    ∧ (∀ (story : Story) (run : Run),
        StoryEngine.get_story stories sid = some story →
        RunRepository.get_active_run db uid sid = some run →
        StoryEngine.start_story db stories uid sid now
          = StoryEngine.continue_story db stories run.run_id now
        ∧ (StoryEngine.start_story db stories uid sid now).2.runs.length
            = db.runs.length)
    ∧ (∀ story : Story,
        StoryEngine.get_story stories sid = some story →
        RunRepository.get_active_run db uid sid = none →
        (story.start_scene = none ∨ story.start_scene = some "") →
        StoryEngine.start_story db stories uid sid now = (none, db))
    ∧ (∀ (story : Story) (s : String),
        StoryEngine.get_story stories sid = some story →
        RunRepository.get_active_run db uid sid = none →
        story.start_scene = some s → s ≠ "" →
        StoryEngine.start_story db stories uid sid now
          = StoryEngine.continue_story
              { runs := db.runs ++ [⟨db.nextRunId, uid, sid, s, false, now, none⟩],
                flags := db.flags, nextRunId := db.nextRunId + 1 }
              stories db.nextRunId now
        ∧ (StoryEngine.start_story db stories uid sid now).2.runs.length
            = db.runs.length + 1) := by
  refine ⟨?_, ?_, ?_, ?_⟩
  · intro h
    unfold StoryEngine.start_story
    simp [h]
  · intro story run h1 h2
    have he : StoryEngine.start_story db stories uid sid now
        = StoryEngine.continue_story db stories run.run_id now := by
      unfold StoryEngine.start_story
      simp [h1, h2]
    exact ⟨he, by rw [he]; exact continue_story_runs_length db stories run.run_id now⟩
  · intro story h1 h2 h3
    unfold StoryEngine.start_story
    rcases h3 with h3 | h3 <;> simp [h1, h2, h3]
  · intro story s h1 h2 h3 h4
    have he : StoryEngine.start_story db stories uid sid now
        = StoryEngine.continue_story
            { runs := db.runs ++ [⟨db.nextRunId, uid, sid, s, false, now, none⟩],
              flags := db.flags, nextRunId := db.nextRunId + 1 }
            stories db.nextRunId now := by
      unfold StoryEngine.start_story RunRepository.create
      simp [h1, h2, h3, h4]
    refine ⟨he, ?_⟩
    rw [he, continue_story_runs_length]
    simp

def dbC3 : DBState := ⟨[⟨1, 7, "s", "a", false, 0, none⟩], [], 2⟩

def storiesC3 : List (String × Story) :=
  [("s", ⟨none, [("a", ⟨"Scene A", []⟩)], [], false⟩)]

/-- C3 counterexample: story "s" declares no start position, yet `start_story`
does not return absent — user 7 holds an unfinished run at scene "a", so the
call returns that run's render; the claimed unconditional failure on a missing
start position is false. -/
theorem start_story_succeeds_without_start_scene :
    (StoryEngine.get_story storiesC3 "s").map (fun st => st.start_scene) = some none
    ∧ (StoryEngine.start_story dbC3 storiesC3 7 "s" 5).1
        = some ⟨"Scene A", some [], 1⟩ := by
  decide

def dbC3w : DBState := ⟨[], [], 1⟩

def storiesC3w : List (String × Story) :=
  [("s", ⟨some "a", [("a", ⟨"A", []⟩)], [], false⟩)]

/-- C3 witness: with no existing run, `start_story` creates exactly one run
(id 1) positioned at the declared start scene "a". -/
theorem start_story_cases_witness :
    StoryEngine.start_story dbC3w storiesC3w 7 "s" 3
      = StoryEngine.continue_story ⟨[⟨1, 7, "s", "a", false, 3, none⟩], [], 2⟩
          storiesC3w 1 3
    ∧ (StoryEngine.start_story dbC3w storiesC3w 7 "s" 3).2.runs.length = 1 :=
  (start_story_cases dbC3w storiesC3w 7 "s" 3).2.2.2
    ⟨some "a", [("a", ⟨"A", []⟩)], [], false⟩ "a"
    (by decide) (by decide) (by decide) (by decide)

def dbC5 : DBState := ⟨[⟨1, 7, "s", "end1", true, 0, some 10⟩], [], 2⟩

def storiesC5 : List (String × Story) :=
  [("s", ⟨some "a", [("a", ⟨"A", []⟩)], [("end1", ⟨"E", "good"⟩)], false⟩)]

/-- C5: the restart policy is violated by the code.  User 7 already finished
story "s" (run 1) and the story's `allow_restart` is false, yet the restart
flow that the runnable code actually offers — `reset_run` followed by the
engine's `start_story`, the exact sequence of the `story_restart` callback
and of `/play` — creates a new run anyway: `reset_run` deletes only
unfinished runs, so it leaves the state untouched here, and the engine's
`allow_restart` block only logs, so a fresh run (id 2) is created at the
start scene.  (The sole real guard sits in the `story_start` handler of
`src/handlers/menu.py`, a module that fails to parse and so can never run.) -/
theorem start_story_after_finish_creates_run :
    (∃ r ∈ dbC5.runs, r.user_id = 7 ∧ r.story_id = "s" ∧ r.is_finished = true)
    ∧ (StoryEngine.get_story storiesC5 "s").map (fun st => st.allow_restart)
        = some false
    ∧ RunRepository.reset_run dbC5 7 "s" = dbC5
    ∧ (StoryEngine.start_story (RunRepository.reset_run dbC5 7 "s")
          storiesC5 7 "s" 20).2.runs.length = dbC5.runs.length + 1
    ∧ RunRepository.get_run_by_id
        (StoryEngine.start_story (RunRepository.reset_run dbC5 7 "s")
          storiesC5 7 "s" 20).2 2
        = some ⟨2, 7, "s", "a", false, 20, none⟩ := by
  decide

/-- C6 (amended): `reset_run` issues the flag deletion first (a statement that
leaves the `runs` relation untouched) and the run deletion second (a statement
that leaves the `flags` relation untouched) — in that order, but each
statement commits separately, so the pair is not one atomic unit (see the
counterexample).  After both deletions no active run remains for the pair, and
a subsequent `start_story` builds exactly one fresh run — id `db.nextRunId` —
whose flag set in the final state is empty: nothing carries over. -/
theorem reset_run_order_and_fresh_start
    (db : DBState) (stories : List (String × Story)) (uid : Nat) (sid : String)
    (now : Nat) (story : Story) (s : String) :
    (RunRepository.reset_run_flags db uid sid).runs = db.runs
    ∧ (∀ d : DBState, (RunRepository.reset_run_runs d uid sid).flags = d.flags)
    ∧ RunRepository.get_active_run (RunRepository.reset_run db uid sid) uid sid = none
    ∧ (StoryEngine.get_story stories sid = some story →
       story.start_scene = some s → s ≠ "" →
       (∀ f ∈ db.flags, f.1 < db.nextRunId) →
       StoryEngine.start_story (RunRepository.reset_run db uid sid) stories uid sid now
         = StoryEngine.continue_story
             { runs := (RunRepository.reset_run db uid sid).runs
                 ++ [⟨db.nextRunId, uid, sid, s, false, now, none⟩],
               flags := (RunRepository.reset_run db uid sid).flags,
               nextRunId := db.nextRunId + 1 }
             stories db.nextRunId now
       ∧ FlagRepository.get_flags
           (StoryEngine.start_story (RunRepository.reset_run db uid sid)
             stories uid sid now).2
           db.nextRunId = []) := by
  refine ⟨rfl, fun d => rfl, get_active_run_reset db uid sid, ?_⟩
  intro h1 h2 h3 h4
  have hact : RunRepository.get_active_run (RunRepository.reset_run db uid sid) uid sid
      = none := get_active_run_reset db uid sid
  have he : StoryEngine.start_story (RunRepository.reset_run db uid sid) stories uid sid now
      = StoryEngine.continue_story
          { runs := (RunRepository.reset_run db uid sid).runs
              ++ [⟨db.nextRunId, uid, sid, s, false, now, none⟩],
            flags := (RunRepository.reset_run db uid sid).flags,
            nextRunId := db.nextRunId + 1 }
          stories db.nextRunId now := by
    unfold StoryEngine.start_story RunRepository.create
    simp [h1, hact, h2, h3]
    rfl
  refine ⟨he, ?_⟩
  rw [he]
  apply get_flags_nil_of_fresh
  intro f hf
  rw [continue_story_flags] at hf
  have hf2 : f ∈ db.flags := by
    have hmem : f ∈ (RunRepository.reset_run db uid sid).flags := hf
    exact List.mem_of_mem_filter hmem
  exact Nat.ne_of_lt (h4 f hf2)

def dbC6 : DBState := ⟨[⟨1, 7, "s", "a", false, 0, none⟩], [(1, "f", "1")], 2⟩

/-- C6 counterexample: with one active run (id 1) holding flag "f", the state
committed after the first deletion statement of `reset_run` (flags gone, run
still present) differs from both the initial state and the final state — so
the two deletions, each with its own commit, do not form a single atomic
unit: a failure between the statements leaves a half-deleted run. -/
theorem reset_run_not_atomic :
    RunRepository.reset_run_flags dbC6 7 "s" ≠ dbC6
    ∧ RunRepository.reset_run_flags dbC6 7 "s" ≠ RunRepository.reset_run dbC6 7 "s" := by
  decide

def storiesC6 : List (String × Story) :=
  [("s", ⟨some "a", [("a", ⟨"A", []⟩)], [], false⟩)]

/-- C6 witness: resetting the concrete pair and starting again creates the
fresh run 2 at scene "a" with an empty flag set. -/
theorem reset_run_order_and_fresh_start_witness :
    StoryEngine.start_story (RunRepository.reset_run dbC6 7 "s") storiesC6 7 "s" 9
      = StoryEngine.continue_story ⟨[⟨2, 7, "s", "a", false, 9, none⟩], [], 3⟩
          storiesC6 2 9
    ∧ FlagRepository.get_flags
        (StoryEngine.start_story (RunRepository.reset_run dbC6 7 "s")
          storiesC6 7 "s" 9).2 2 = [] :=
  (reset_run_order_and_fresh_start dbC6 storiesC6 7 "s" 9
      ⟨some "a", [("a", ⟨"A", []⟩)], [], false⟩ "a").2.2.2
    (by decide) (by decide) (by decide) (by decide)

/-- C8: `increment_counter(name)` reads the flag's string value, parses it as
an integer — defaulting to 0 when the flag is absent — and stores the
incremented value back as a string; consequently three increments of an
absent counter "n" leave flag "n" with the value "3". -/
theorem increment_counter_spec :
    (∀ (db : DBState) (rid : Nat) (name s : String) (v : Int),
        lookupFlag (FlagRepository.get_flags db rid) name = some s →
        pyInt? s = some v →
        EffectApplier.apply_single_effect db rid (Effect.increment_counter name)
          = .ok (FlagRepository.set_flag db rid name (toString (v + 1))))
    ∧ (∀ (db : DBState) (rid : Nat) (name : String),
        lookupFlag (FlagRepository.get_flags db rid) name = none →
        EffectApplier.apply_single_effect db rid (Effect.increment_counter name)
          = .ok (FlagRepository.set_flag db rid name "1"))
    ∧ (∀ (db : DBState) (rid : Nat),
        lookupFlag (FlagRepository.get_flags db rid) "n" = none →
        ∃ db3,
          EffectApplier.apply_effects db rid
              [Effect.increment_counter "n", Effect.increment_counter "n",
               Effect.increment_counter "n"] = .ok db3
          ∧ lookupFlag (FlagRepository.get_flags db3 rid) "n" = some "3") := by
  refine ⟨?_, ?_, ?_⟩
  · intro db rid name s v h1 h2
    simp [EffectApplier.apply_single_effect, h1, h2]
  · intro db rid name h
    simp [EffectApplier.apply_single_effect, h,
      show pyInt? "0" = some 0 from by decide,
      show toString (1 : Int) = "1" from by decide]
  · intro db rid h
    have s1 : EffectApplier.apply_single_effect db rid (Effect.increment_counter "n")
        = .ok (FlagRepository.set_flag db rid "n" "1") := by
      simp [EffectApplier.apply_single_effect, h,
        show pyInt? "0" = some 0 from by decide,
        show toString (1 : Int) = "1" from by decide]
    have l1 : lookupFlag
        (FlagRepository.get_flags (FlagRepository.set_flag db rid "n" "1") rid) "n"
        = some "1" := lookupFlag_set_self db rid "n" "1"
    have s2 : EffectApplier.apply_single_effect
        (FlagRepository.set_flag db rid "n" "1") rid (Effect.increment_counter "n")
        = .ok (FlagRepository.set_flag (FlagRepository.set_flag db rid "n" "1")
            rid "n" "2") := by
      simp [EffectApplier.apply_single_effect, l1,
        show pyInt? "1" = some 1 from by decide,
        show toString (2 : Int) = "2" from by decide]
    have l2 : lookupFlag
        (FlagRepository.get_flags
          (FlagRepository.set_flag (FlagRepository.set_flag db rid "n" "1") rid "n" "2")
          rid) "n" = some "2" :=
      lookupFlag_set_self (FlagRepository.set_flag db rid "n" "1") rid "n" "2"
    have s3 : EffectApplier.apply_single_effect
        (FlagRepository.set_flag (FlagRepository.set_flag db rid "n" "1") rid "n" "2")
        rid (Effect.increment_counter "n")
        = .ok (FlagRepository.set_flag
            (FlagRepository.set_flag (FlagRepository.set_flag db rid "n" "1") rid "n" "2")
            rid "n" "3") := by
      simp [EffectApplier.apply_single_effect, l2,
        show pyInt? "2" = some 2 from by decide,
        show toString (3 : Int) = "3" from by decide]
    refine ⟨FlagRepository.set_flag
        (FlagRepository.set_flag (FlagRepository.set_flag db rid "n" "1") rid "n" "2")
        rid "n" "3", ?_, ?_⟩
    · simp [EffectApplier.apply_effects, s1, s2, s3]
    · exact lookupFlag_set_self
        (FlagRepository.set_flag (FlagRepository.set_flag db rid "n" "1") rid "n" "2")
        rid "n" "3"

/-- C8 witness: on a store with no flag "n" for run 1, the three increments
produce a state whose flag "n" reads "3". -/
theorem increment_counter_spec_witness :
    lookupFlag (FlagRepository.get_flags ⟨[], [], 1⟩ 1) "n" = none
    ∧ ∃ db3,
        EffectApplier.apply_effects ⟨[], [], 1⟩ 1
            [Effect.increment_counter "n", Effect.increment_counter "n",
             Effect.increment_counter "n"] = .ok db3
        ∧ lookupFlag (FlagRepository.get_flags db3 1) "n" = some "3" :=
  ⟨by decide, increment_counter_spec.2.2 ⟨[], [], 1⟩ 1 (by decide)⟩
